import Mathlib

/-!
Verification of the gleanclone structural indexer (`glean_code_ds.py`) and
grounded query engine (`spring_boot_analyzer/analyzer.py`).  The Python
functions that the claims refer to are shallowly embedded as executable Lean
definitions; file-system state and the external text-generation service are
made explicit parameters.
-/

namespace GleanClone

/-! ## String primitives shared by the embedded code

Python string operations used by the source: `str.replace`, the `in`
substring test, `str.strip('"')`, `str.startswith`, `str.endswith`,
`str.lower`, `str.upper`, `str.split`. -/

/-- `listIsPrefixOf pat s` decides whether `pat` is a prefix of `s`. -/
def listIsPrefixOf : List Char → List Char → Bool
  | [], _ => true
  | _ :: _, [] => false
  | a :: as, b :: bs => a == b && listIsPrefixOf as bs

/-- One left-to-right non-overlapping replacement pass, exactly Python's
`str.replace` for a non-empty pattern.  `fuel` bounds recursion; callers pass
the length of the subject string, which always suffices because each step
consumes at least one character. -/
def pyReplaceAux (pat rep : List Char) : Nat → List Char → List Char
  | 0, s => s
  | _ + 1, [] => []
  | fuel + 1, c :: cs =>
    if listIsPrefixOf pat (c :: cs) then
      rep ++ pyReplaceAux pat rep fuel (List.drop (pat.length - 1) cs)
    else
      c :: pyReplaceAux pat rep fuel cs

/-- Python `s.replace('', rep)` puts `rep` around every character. -/
def pyInterleave (rep : List Char) : List Char → List Char
  | [] => rep
  | c :: cs => rep ++ c :: pyInterleave rep cs

/-- Python `s.replace(pat, rep)`: every non-overlapping occurrence of `pat`
in `s`, scanned left to right, is replaced by `rep`. -/
def pyReplace (s pat rep : String) : String :=
  if pat.toList.isEmpty then ⟨pyInterleave rep.toList s.toList⟩
  else ⟨pyReplaceAux pat.toList rep.toList s.toList.length s.toList⟩

/-- Auxiliary for the Python `in` substring test. -/
def listContainsSub (pat : List Char) : List Char → Bool
  | [] => listIsPrefixOf pat []
  | c :: cs => listIsPrefixOf pat (c :: cs) || listContainsSub pat cs

/-- Python `pat in s` substring test. -/
def strContains (s pat : String) : Bool :=
  listContainsSub pat.toList s.toList

/-- Python `s.strip(c)` for a single strip character: remove every leading
and trailing occurrence of `c`. -/
def pyStrip (c : Char) (s : String) : String :=
  ⟨((s.toList.dropWhile (· == c)).reverse.dropWhile (· == c)).reverse⟩

/-- Python `s.startswith(pre)`. -/
def pyStartsWith (s pre : String) : Bool :=
  listIsPrefixOf pre.toList s.toList

/-- Python `s.endswith(suf)`. -/
def pyEndsWith (s suf : String) : Bool :=
  listIsPrefixOf suf.toList.reverse s.toList.reverse

/-- Python `s.lower()` (ASCII). -/
def pyLower (s : String) : String :=
  ⟨s.toList.map Char.toLower⟩

/-- Python `s.upper()` (ASCII). -/
def pyUpper (s : String) : String :=
  ⟨s.toList.map Char.toUpper⟩

/-- Python `s.split(sep)` for a one-character separator (`os.sep`). -/
def listSplitChar (sep : Char) : List Char → List (List Char)
  | [] => [[]]
  | c :: cs =>
    let rest := listSplitChar sep cs
    if c == sep then [] :: rest
    else
      match rest with
      | [] => [[c]]
      | r :: rs => (c :: r) :: rs

/-- Python `s.split('/')`. -/
def pySplitSlash (s : String) : List String :=
  (listSplitChar '/' s.toList).map (fun l => ⟨l⟩)

/-! ## glean_code_ds.py: module-level configuration

The Python module defines `EXTERNAL_PACKAGES`, `TEST_KEYWORDS` and the test
directory names used in `is_test_class`.  They are Python sets consumed only
through `any(...)`, so iteration order is irrelevant and a list of the same
literals is a faithful model. -/

/-- Common Java framework packages to filter out (`EXTERNAL_PACKAGES`). -/
def EXTERNAL_PACKAGES : List String :=
  ["org.springframework", "javax", "java", "org.hibernate", "org.junit",
   "org.mockito", "org.apache", "com.fasterxml", "io.swagger", "lombok",
   "jakarta", "org.slf4j", "ch.qos.logback", "org.json", "com.google",
   "org.testng", "junit", "org.junit.jupiter", "org.junit.jupiter.api"]

/-- Test-related keywords to filter out (`TEST_KEYWORDS`). -/
def TEST_KEYWORDS : List String :=
  ["Test", "Tests", "TestCase", "TestSuite", "IntegrationTest",
   "UnitTest", "Spec", "Specification", "IT", "E2E"]

/-- The `test_dirs` set local to `is_test_class`. -/
def TEST_DIRS : List String := ["test", "tests", "testing", "it", "e2e"]

/-- `is_test_class(class_name, file_path)`: the class name contains a test
keyword, or the lower-cased file path, split on the path separator, contains
a test directory segment. -/
def isTestClass (className filePath : String) : Bool :=
  TEST_KEYWORDS.any (fun keyword => strContains className keyword) ||
  (let pathParts := pySplitSlash (pyLower filePath)
   TEST_DIRS.any (fun testDir => pathParts.contains testDir))

/-- `is_external_dependency(dependency)`: the import path starts with one of
the configured external package prefixes. -/
def isExternalDependency (dependency : String) : Bool :=
  EXTERNAL_PACKAGES.any (fun pkg => pyStartsWith dependency pkg)

/-! ## glean_code_ds.py: the javalang AST as seen by the walkers

`for path, node in tree` flattens the AST in pre-order.  The walkers in this
module match on `ClassDeclaration`, `MethodDeclaration` and `Import` nodes,
and additionally read `node.body` of a class and the `element` list of an
annotation (pairs of element name and raw string token, quotes included). -/

/-- An annotation occurrence: name plus its `element` argument pairs
(element name, raw string literal token including the quotes). -/
structure AnnotationNode where
  name : String
  element : List (String × String)
deriving Repr, DecidableEq

/-- A `MethodDeclaration` node. -/
structure MethodNode where
  name : String
  line : Nat
  annotations : List AnnotationNode
deriving Repr, DecidableEq

/-- A `FieldDeclaration` member: declared type name and declarator names. -/
structure FieldNode where
  typeName : String
  declarators : List String
deriving Repr, DecidableEq

/-- A `ClassDeclaration` node with its member lists. -/
structure ClassNode where
  name : String
  line : Nat
  annotations : List AnnotationNode
  body : List MethodNode
  fields : List FieldNode
deriving Repr, DecidableEq

/-- One node of the flattened pre-order walk `for path, node in tree`. -/
inductive JavaNode where
  | classNode (c : ClassNode)
  | methodNode (m : MethodNode)
  | importNode (path : String)
deriving Repr, DecidableEq

/-- The loop `for elem in ann.element: if name == 'value': value.value.strip('"'); break`:
first element named `value`, with surrounding quotes stripped. -/
def annotationValueElem (ann : AnnotationNode) : Option String :=
  match ann.element.find? (fun elem => elem.1 == "value") with
  | some elem => some (pyStrip '"' elem.2)
  | none => none

/-- The class-level base-path loop of `extract_api_endpoints` (lines 176-184):
every `RequestMapping` annotation with a `value` element overwrites
`base_path`, which starts as the empty string. -/
def classBasePath (c : ClassNode) : String :=
  c.annotations.foldl
    (fun basePath ann =>
      if ann.name == "RequestMapping" then
        match annotationValueElem ann with
        | some v => v
        | none => basePath
      else basePath)
    ""

/-- The HTTP-verb annotation names recognised by the endpoint walkers. -/
def HTTP_MAPPINGS : List String :=
  ["GetMapping", "PostMapping", "PutMapping", "DeleteMapping", "PatchMapping"]

/-- An extracted endpoint of `extract_api_endpoints`: HTTP verb, joined path,
owning class, owning method and line. -/
structure Endpoint where
  method : String
  path : String
  cls : String
  method_name : String
  line_number : Nat
deriving Repr, DecidableEq

/-- `extract_api_endpoints(tree)` (lines 168-216).  For every class node
carrying `RestController` or `Controller`: for every body method whose first
HTTP-verb annotation is found, emit the verb (annotation name with `Mapping`
removed, upper-cased) and the path `f"{base_path}/{path}".replace("//", "/")`,
where a missing annotation value leaves the empty string in place. -/
def extractApiEndpoints (tree : List JavaNode) : List Endpoint :=
  tree.foldl
    (fun endpoints node =>
      match node with
      | .classNode c =>
        let classAnnotationNames := c.annotations.map (fun ann => ann.name)
        let basePath := classBasePath c
        if ["RestController", "Controller"].any
            (fun a => classAnnotationNames.contains a) then
          endpoints ++ c.body.foldl
            (fun acc m =>
              match m.annotations.find? (fun ann => HTTP_MAPPINGS.contains ann.name) with
              | some ann =>
                let httpMethod := pyUpper (pyReplace ann.name "Mapping" "")
                let path := (annotationValueElem ann).getD ""
                acc ++ [{ method := httpMethod,
                          path := pyReplace (basePath ++ "/" ++ path) "//" "/",
                          cls := c.name,
                          method_name := m.name,
                          line_number := m.line }]
              | none => acc)
            []
        else endpoints
      | _ => endpoints)
    []

/-! ## glean_code_ds.py: ComponentRecord and parse_java_file -/

/-- One entry of the `classes` list of a parsed record. -/
structure ClassInfo where
  name : String
  line_number : Nat
  pkg : String
  annotations : List String
deriving Repr, DecidableEq

/-- One entry of the `methods` list of a parsed record. -/
structure MethodInfo where
  name : String
  line_number : Nat
  annotations : List String
deriving Repr, DecidableEq

/-- One endpoint dict of `extract_api_flow`: `method` is the owning method
name, `http_method` the verb, `path` the regex-extracted annotation value. -/
structure FlowEndpoint where
  method : String
  path : String
  cls : String
  line_number : Nat
  http_method : String
deriving Repr, DecidableEq

/-- One `service_calls` dict of `extract_api_flow`. -/
structure ServiceCall where
  cls : String
  service : String
  field : String
deriving Repr, DecidableEq

/-- One `repository_calls` dict of `extract_api_flow`. -/
structure RepositoryCall where
  cls : String
  repository : String
  field : String
deriving Repr, DecidableEq

/-- The `api_flow` value stored inside a ComponentRecord. -/
structure ApiFlow where
  endpoints : List FlowEndpoint
  service_calls : List ServiceCall
  repository_calls : List RepositoryCall
deriving Repr, DecidableEq

/-- The per-file parse output of `parse_java_file` (the keys of
`parsed_data` that the tree walk can populate; `fields`, `call_graph`,
`inheritance`, `annotations` and `references` stay empty lists in the source
and are omitted). -/
structure ComponentRecord where
  pkg : String
  classes : List ClassInfo
  methods : List MethodInfo
  dependencies : List String
  api_flow : ApiFlow
deriving Repr, DecidableEq

/-- The loop body of the `parse_java_file` tree walk (lines 337-355):
non-test classes, non-test methods, and imports that are not external
dependencies are appended to `parsed_data`. -/
def parseTreeStep (filePath packageName : String) (acc : ComponentRecord)
    (node : JavaNode) : ComponentRecord :=
  match node with
  | .classNode c =>
    if !(isTestClass c.name filePath) then
      { acc with classes := acc.classes ++
          [{ name := c.name, line_number := c.line, pkg := packageName,
             annotations := c.annotations.map (fun ann => ann.name) }] }
    else acc
  | .methodNode m =>
    if !(TEST_KEYWORDS.any (fun keyword => strContains m.name keyword)) then
      { acc with methods := acc.methods ++
          [{ name := m.name, line_number := m.line,
             annotations := m.annotations.map (fun ann => ann.name) }] }
    else acc
  | .importNode p =>
    if !(isExternalDependency p) then
      { acc with dependencies := acc.dependencies ++ [p] }
    else acc

/-- The tree walk of `parse_java_file` building `parsed_data`, folding
`parseTreeStep` over the flattened nodes.  `apiFlowData` is the
`extract_api_flow(tree, file_path)` result, whose regex-over-raw-source
extraction is supplied as an argument here. -/
def parseTree (tree : List JavaNode) (filePath : String) (packageName : String)
    (apiFlowData : ApiFlow) : ComponentRecord :=
  tree.foldl (parseTreeStep filePath packageName)
    { pkg := packageName, classes := [], methods := [], dependencies := [],
      api_flow := apiFlowData }

/-- `index_data[file_path] = parsed_data` on a Python dict: update the entry
in place if the key exists, else append it. -/
def upsertRecord (indexData : List (String × ComponentRecord)) (filePath : String)
    (data : ComponentRecord) : List (String × ComponentRecord) :=
  if indexData.any (fun entry => entry.1 == filePath) then
    indexData.map (fun entry => if entry.1 == filePath then (filePath, data) else entry)
  else indexData ++ [(filePath, data)]

/-- One value of the derived `api_flow.json` object (keyed by full path). -/
structure FlowEntry where
  endpoints : List FlowEndpoint
  service_calls : List ServiceCall
deriving Repr, DecidableEq

/-- Lookup in an insertion-ordered JSON object (first entry with the key). -/
def alistFind (flow : List (String × FlowEntry)) (k : String) : Option FlowEntry :=
  match flow with
  | [] => none
  | entry :: rest => if entry.1 == k then some entry.2 else alistFind rest k

/-- In-place update of one key of an insertion-ordered JSON object. -/
def alistModify (flow : List (String × FlowEntry)) (k : String)
    (f : FlowEntry → FlowEntry) : List (String × FlowEntry) :=
  flow.map (fun entry => if entry.1 == k then (entry.1, f entry.2) else entry)

/-- The base-path loop of the `parse_java_file` rebuild (lines 368-377): for
every stored class whose name matches the endpoint class, any stored
annotation name containing `RequestMapping` sets `base_path` to the fixed
literal `"api/v1"` (the stored annotation names carry no parsed value). -/
def flowBasePath (data : ComponentRecord) (clsName : String) : String :=
  data.classes.foldl
    (fun basePath classInfo =>
      if classInfo.name == clsName then
        classInfo.annotations.foldl
          (fun bp ann => if strContains ann "RequestMapping" then "api/v1" else bp)
          basePath
      else basePath)
    ""

/-- Whether the stored record carries, for the given class name, an
annotation name containing `RequestMapping`. -/
def classHasRequestMappingName (data : ComponentRecord) (clsName : String) : Bool :=
  data.classes.any
    (fun classInfo => classInfo.name == clsName &&
      classInfo.annotations.any (fun ann => strContains ann "RequestMapping"))

/-- `full_path = f"{base_path}/{endpoint['path']}".replace("//", "/")`
(line 379). -/
def flowFullPath (data : ComponentRecord) (endpoint : FlowEndpoint) : String :=
  pyReplace (flowBasePath data endpoint.cls ++ "/" ++ endpoint.path) "//" "/"

/-- The duplicate test on service calls (lines 400-404). -/
def sameServiceCall (a b : ServiceCall) : Bool :=
  a.cls == b.cls && a.service == b.service && a.field == b.field

/-- The body of the service-call loop of the rebuild (lines 396-408): a
service call of the record whose class matches the endpoint class is
appended to the bucket at `fullPath` unless an identical one is already
present there. -/
def addServiceCallStep (endpoint : FlowEndpoint) (fullPath : String)
    (acc : List (String × FlowEntry)) (serviceCall : ServiceCall) :
    List (String × FlowEntry) :=
  if serviceCall.cls == endpoint.cls then
    alistModify acc fullPath
      (fun entry =>
        if entry.service_calls.any (fun existing => sameServiceCall existing serviceCall) then
          entry
        else { entry with service_calls := entry.service_calls ++ [serviceCall] })
  else acc

/-- The service-call loop of the rebuild, folded over the record. -/
def addServiceCalls (data : ComponentRecord) (endpoint : FlowEndpoint)
    (fullPath : String) (flow : List (String × FlowEntry)) :
    List (String × FlowEntry) :=
  data.api_flow.service_calls.foldl (addServiceCallStep endpoint fullPath) flow

/-- Processing of one endpoint in the rebuild loop (lines 367-408): create
the bucket at its full path when absent, append the endpoint dict (all its
fields are copied verbatim), then merge the matching service calls. -/
def processEndpoint (data : ComponentRecord) (flow : List (String × FlowEntry))
    (endpoint : FlowEndpoint) : List (String × FlowEntry) :=
  let fullPath := flowFullPath data endpoint
  let flow := if (alistFind flow fullPath).isNone
              then flow ++ [(fullPath, { endpoints := [], service_calls := [] })]
              else flow
  let flow := alistModify flow fullPath
    (fun entry => { entry with endpoints := entry.endpoints ++ [endpoint] })
  addServiceCalls data endpoint fullPath flow

/-- Processing of one index record in the rebuild: fold `processEndpoint`
over its endpoints. -/
def processRecord (flow : List (String × FlowEntry))
    (entry : String × ComponentRecord) : List (String × FlowEntry) :=
  entry.2.api_flow.endpoints.foldl (processEndpoint entry.2) flow

/-- The full rebuild of `api_flow.json` (lines 362-408), started from the
cleared object `api_flow_data = {}` and grouping every endpoint of every
record currently in the index. -/
def deriveApiFlow (indexData : List (String × ComponentRecord)) :
    List (String × FlowEntry) :=
  indexData.foldl processRecord []

/-- The two persisted artifacts `parse_java_file` writes. -/
structure IndexState where
  index : List (String × ComponentRecord)
  apiFlow : List (String × FlowEntry)
deriving Repr, DecidableEq

/-- `parse_java_file(file_path)` (lines 310-412).  A syntax or I/O error
returns the error message without touching either artifact.  On success the
record is upserted into `index.json`; then `api_flow.json` is loaded,
immediately replaced by the empty object (`api_flow_data = {}`), rebuilt
from every record of the updated index, and saved. -/
def parseJavaFile (st : IndexState) (filePath : String)
    (parsed : Except String ComponentRecord) : IndexState × String :=
  match parsed with
  | .error err => (st, "Error parsing Java file " ++ filePath ++ ": " ++ err)
  | .ok parsedData =>
    let indexData := upsertRecord st.index filePath parsedData
    let apiFlowData := deriveApiFlow indexData
    ({ index := indexData, apiFlow := apiFlowData },
     "Successfully parsed " ++ filePath)

/-- `scan_directory_incremental(directory)` (lines 614-655), restricted to
the file-selection logic: the walk is a list of `(root, files)` pairs; roots
containing `.git`, or `test` after lower-casing, are skipped, and every
remaining file ending in `.java` is queued for `parse_java_file`.  The
function reads no checksum map and takes no notion of file content or
change: the returned list is the list of files parsed on every scan. -/
def scanDirectoryIncremental (walk : List (String × List String)) : List String :=
  walk.foldl
    (fun javaFiles rootEntry =>
      if strContains rootEntry.1 ".git" then javaFiles
      else if strContains (pyLower rootEntry.1) "test" then javaFiles
      else javaFiles ++
        ((rootEntry.2.filter (fun f => pyEndsWith f ".java")).map
          (fun f => rootEntry.1 ++ "/" ++ f)))
    []

/-! ## glean_code_ds.py: persisted-artifact reads and the OpenAI call -/

/-- What can be found at a persisted file path: absent, zero-byte, an I/O
failure on read, JSON that fails to parse, or a parsed value. -/
inductive FileContents (α : Type) where
  | missing
  | emptyFile
  | ioError (msg : String)
  | malformed (msg : String)
  | valid (value : α)
deriving Repr, DecidableEq

/-- `load_from_file(file_name)` (lines 150-165): a missing file, an empty
file, a caught `IOError` and a caught `JSONDecodeError` all yield the empty
dictionary; only a readable, parseable file yields its contents. -/
def loadFromFile {α : Type} (emptyValue : α) : FileContents α → α
  | .missing => emptyValue
  | .emptyFile => emptyValue
  | .ioError _ => emptyValue
  | .malformed _ => emptyValue
  | .valid value => value

/-- `load_config()` (lines 85-89): a missing `config.json` returns the empty
dictionary; any existing file is opened and parsed with no exception
handler, so a read failure or undecodable JSON (an empty file included)
escapes as an exception — modelled by `Except.error` — which, raised while
the module loads, terminates the process before any indexing. -/
def loadConfig : FileContents (List (String × String)) →
    Except String (List (String × String))
  | .missing => .ok []
  | .emptyFile => .error "JSONDecodeError: Expecting value"
  | .ioError msg => .error msg
  | .malformed msg => .error msg
  | .valid cfg => .ok cfg

/-- The attempt loop of `call_openai_api` (lines 739-756): try the next
outcome; a success is returned at once, a failure moves to the next attempt
(after `time.sleep(retry_delay)`) until the retry budget is exhausted, at
which point `None` is returned. -/
def callAttempts (outcomes : Nat → Except String String) :
    Nat → Nat → Option String
  | _, 0 => none
  | attempt, remaining + 1 =>
    match outcomes attempt with
    | .ok content => some content
    | .error _ => callAttempts outcomes (attempt + 1) remaining

/-- `call_openai_api(prompt, max_retries=3, retry_delay=2)` (lines 728-756):
a missing `openai_api_key` returns `None` immediately; otherwise up to
`maxRetries` attempts are made (the source default is 3) and exhaustion
returns `None`.  `outcomes i` is what the external service does on the
`i`-th attempt. -/
def callOpenaiApi (apiKey : Option String) (outcomes : Nat → Except String String)
    (maxRetries : Nat) : Option String :=
  match apiKey with
  | none => none
  | some _ => callAttempts outcomes 0 maxRetries

/-! ## glean_code_ds.py: the generated self-correction prompt template

`generate_llm_prompt_templates` (lines 1318-1359) writes this text to
`summary/llm_prompts/self_correction_template.md`; the analyzer loads it
under the template name `self_correction_template`. -/

/-- The `self_correction_template` string literal of
`generate_llm_prompt_templates`. -/
def namedSelfCorrectionTemplate : String :=
"# Self-Correction Review

## Original Response
{insert original LLM response}

## Application Context
{insert relevant high-level application summary}

## Component Relationship Matrix
{insert relevant portion of component relationship matrix}

## Instructions
Review the original response and verify:
1. Are all cited files actually mentioned in the application context?
2. Are the described relationships between components consistent with the provided component relationship matrix?
3. Are the described API flows consistent with the provided API flow data?
4. Does the impact analysis consider all dependent components from the relationship matrix?
5. Correct any inconsistencies and explain the corrections.

## Example Response Format:
```
Review of original response:

1. File reference accuracy:
   - [CorrectReference.java]: Verified in application context
   - [IncorrectReference.java]: Not found in application context, should be [CorrectFile.java]

2. Component relationship accuracy:
   - [Component1.java] correctly identified as depending on [Component2.java]
   - [Component3.java] incorrectly described as using [Component4.java], no such relationship exists

3. API flow accuracy:
   - The described flow for [/api/endpoint] is consistent with the API flow data
   - The described flow for [/api/another] is inconsistent, should include [MissingComponent.java]

4. Impact analysis completeness:
   - [MissingDependentComponent.java] was not considered but would be affected

Corrected response:
{insert corrected response}
```
"

/-! ## spring_boot_analyzer/analyzer.py -/

/-- The built-in fallback of `QueryProcessor._verify_response`
(lines 433-451), used when the named template is missing. -/
def fallbackSelfCorrectionTemplate : String :=
"# Self-Correction Review

## Original Response
{response}

## Application Context
{app_overview}

## Component Relationships
{matrix}

## Instructions
Review the original response and verify:
1. Are all cited files actually mentioned in the application context?
2. Are the described relationships between components consistent with the provided component relationship matrix?
3. Are the described API flows consistent with the provided API flow data?
4. Does the impact analysis consider all dependent components from the relationship matrix?
5. Correct any inconsistencies and explain the corrections.
"

/-- The built-in default of `QueryProcessor.build_prompt` (lines 344-367),
used when the named template is missing. -/
def defaultGeneralTemplate : String :=
"# Spring Boot Application Analysis

## Application Context
{app_overview}

## Components Relevant to Query
{components}

## API Flows Related to Query
{api_flows}

## Component Relationships
{matrix}

## Question
{query}

## Instructions
1. Analyze the question in relation to the provided Spring Boot application context
2. Provide a detailed technical response addressing the question
3. Cite specific code files and components in your answer using the format [FileName.java]
4. Identify any potential impacts or considerations across components
5. If any information seems missing, note assumptions you're making
"

/-- `LLMClient.analyze_application` (lines 311-329): one call to the
external service; a success returns its content, any exception is caught
and the string `"Error: " + message` is returned.  There is no retry loop,
so only `outcomes 0` is ever consulted. -/
def analyzeApplication (outcomes : Nat → Except String String) : String :=
  match outcomes 0 with
  | .ok content => content
  | .error e => "Error: " ++ e

/-- `QueryProcessor._verify_response` prompt construction (lines 426-468).
`templateLookup` is `get_prompt_template("self_correction_template")`,
which returns the empty string when the template is missing.  The first two
`pyReplace` results are dead stores, exactly as in the source: lines 462 and
463 each restart from `verification_template`, so only the matrix
substitution of line 463 survives into line 466. -/
def verifyPrompt (templateLookup response appOverviewSummary matrixText : String) :
    String :=
  let verificationTemplate :=
    if templateLookup == "" then fallbackSelfCorrectionTemplate else templateLookup
  let verificationPrompt :=
    pyReplace verificationTemplate "{insert original LLM response}" response
  let verificationPrompt :=
    pyReplace verificationTemplate "{insert relevant high-level application summary}"
      appOverviewSummary
  let verificationPrompt :=
    pyReplace verificationTemplate "{insert relevant portion of component relationship matrix}"
      matrixText
  let verificationPrompt := pyReplace verificationPrompt "{response}" response
  let verificationPrompt := pyReplace verificationPrompt "{app_overview}" appOverviewSummary
  pyReplace verificationPrompt "{matrix}" matrixText

/-! ### ContextManager retrieval

`get_relevant_components` scores every stored summary embedding against the
query embedding with scikit-learn cosine similarity, sorts with Python
`sorted(..., key=similarity, reverse=True)` — a stable sort, so equal
scores keep insertion order — and keeps the first `top_n` entries.  The
embedding model and the cosine score are the pluggable external capability;
they enter the embedding as the deterministic function `cosineSim` over an
arbitrary linearly ordered score type. -/

/-- Stable descending insertion: an element moves left past exactly the
strictly smaller scores, so among equal scores the earlier (left) element
stays first — the tie behaviour of Python `sorted` with `reverse=True`. -/
def insertDescending {β : Type} [LinearOrder β] (x : String × β) :
    List (String × β) → List (String × β)
  | [] => [x]
  | y :: ys => if y.2 ≤ x.2 then x :: y :: ys else y :: insertDescending x ys

/-- Stable sort by descending score. -/
def sortDescending {β : Type} [LinearOrder β] :
    List (String × β) → List (String × β)
  | [] => []
  | x :: xs => insertDescending x (sortDescending xs)

/-- `ContextManager.get_relevant_components(query, top_n)` (lines 227-248):
score every stored embedding in insertion order, sort by descending
similarity (stable), take the first `topN`.  The source default for `topN`
is 5. -/
def getRelevantComponents {V β : Type} [LinearOrder β]
    (cosineSim : String → V → β) (query : String)
    (storedEmbeddings : List (String × V)) (topN : Nat) : List (String × β) :=
  let fileSimilarities :=
    storedEmbeddings.map (fun entry => (entry.1, cosineSim query entry.2))
  (sortDescending fileSimilarities).take topN

/-! ### ContextManager context assembly and QueryProcessor -/

/-- One loaded file summary: text and detected component type. -/
structure SummaryData where
  summary : String
  ctype : String
deriving Repr, DecidableEq

/-- One entry of `summary/enhanced_api_flow.json` as `get_related_api_flows`
reads it: the controller file name, the `serviceChain` file names and the
`repositoryAccess` file names. -/
structure EnhancedFlow where
  controllerFile : String
  serviceFiles : List String
  repositoryFiles : List String
deriving Repr, DecidableEq

/-- One parsed row of the component relationship matrix. -/
structure MatrixRow where
  depends_on : List String
  used_by : List String
deriving Repr, DecidableEq

/-- Everything the `ContextManager` loads at startup, plus the persisted
files themselves.  `process_query` reads these and writes none of them. -/
structure AnalyzerState (V : Type) where
  fileSummaries : List (String × SummaryData)
  fileSummaryEmbeddings : List (String × V)
  appOverview : String
  apiFlows : List (String × EnhancedFlow)
  componentMatrix : List (String × MatrixRow)
  promptTemplates : List (String × String)
  persistedFiles : List (String × String)

/-- Python `dict.get`-style lookup on an insertion-ordered object. -/
def lookupStr {α : Type} (l : List (String × α)) (k : String) : Option α :=
  (l.find? (fun entry => entry.1 == k)).map (fun entry => entry.2)

/-- `ContextManager.get_related_api_flows(components)` (lines 250-272):
keep every flow whose controller, service-chain or repository-access file
name (with `.java` removed) is one of the retrieved component names. -/
def getRelatedApiFlows {V : Type} (st : AnalyzerState V)
    (componentNames : List String) : List (String × EnhancedFlow) :=
  st.apiFlows.filter
    (fun flowEntry =>
      componentNames.contains (pyReplace flowEntry.2.controllerFile ".java" "") ||
      flowEntry.2.serviceFiles.any
        (fun f => componentNames.contains (pyReplace f ".java" "")) ||
      flowEntry.2.repositoryFiles.any
        (fun f => componentNames.contains (pyReplace f ".java" "")))

/-- `ContextManager.get_related_matrix_entries(components)` (lines 274-289):
keep every row whose component is retrieved or whose depends-on or used-by
set intersects the retrieved component names. -/
def getRelatedMatrixEntries {V : Type} (st : AnalyzerState V)
    (componentNames : List String) : List (String × MatrixRow) :=
  st.componentMatrix.filter
    (fun row =>
      componentNames.contains row.1 ||
      row.2.depends_on.any (fun d => componentNames.contains d) ||
      row.2.used_by.any (fun u => componentNames.contains u))

/-- The context payload built in `process_query` step 2. -/
structure QueryContext where
  appOverview : String
  components : List (String × String)
  apiFlows : List (String × EnhancedFlow)
  matrix : List (String × MatrixRow)

/-- The components section of `build_prompt` (lines 370-372). -/
def formatComponentsText (components : List (String × String)) : String :=
  components.foldl
    (fun acc comp => acc ++ "### " ++ comp.1 ++ "\n" ++ comp.2 ++ "\n\n") ""

/-- The matrix section of `build_prompt` and `_verify_response`
(lines 378-382 and 454-458). -/
def formatMatrixText (matrix : List (String × MatrixRow)) : String :=
  matrix.foldl
    (fun acc row =>
      let dependsOn :=
        if row.2.depends_on.isEmpty then "None"
        else String.intercalate ", " row.2.depends_on
      let usedBy :=
        if row.2.used_by.isEmpty then "None"
        else String.intercalate ", " row.2.used_by
      acc ++ "- " ++ row.1 ++ ":\n  - Depends on: " ++ dependsOn ++
        "\n  - Used by: " ++ usedBy ++ "\n\n")
    ""

/-- Stands for `json.dumps(context["api_flows"], indent=2)` in
`build_prompt` (line 375): a deterministic textual rendering of the related
flows. -/
def formatApiFlowsText (flows : List (String × EnhancedFlow)) : String :=
  flows.foldl
    (fun acc flowEntry =>
      acc ++ "\"" ++ flowEntry.1 ++ "\": \x7bcontroller: " ++
        flowEntry.2.controllerFile ++ ", serviceChain: " ++
        String.intercalate ", " flowEntry.2.serviceFiles ++ ", repositoryAccess: " ++
        String.intercalate ", " flowEntry.2.repositoryFiles ++ "\x7d\n")
    ""

/-- `QueryProcessor.build_prompt(query, context, template_name)`
(lines 338-397): look the template up (empty string when missing, replaced
by the built-in default), then perform the nine placeholder substitutions in
source order. -/
def buildPrompt {V : Type} (st : AnalyzerState V) (query : String)
    (ctx : QueryContext) (templateName : String) : String :=
  let template := (lookupStr st.promptTemplates templateName).getD ""
  let template := if template == "" then defaultGeneralTemplate else template
  let componentsText := formatComponentsText ctx.components
  let apiFlowsText := formatApiFlowsText ctx.apiFlows
  let matrixText := formatMatrixText ctx.matrix
  let prompt :=
    pyReplace template "{insert relevant high-level application summary}" ctx.appOverview
  let prompt :=
    pyReplace prompt "{insert summaries of the 3-5 most relevant components}" componentsText
  let prompt :=
    pyReplace prompt "{insert API flow data for endpoints relevant to the query}" apiFlowsText
  let prompt := pyReplace prompt "{insert specific question}" query
  let prompt := pyReplace prompt "{app_overview}" ctx.appOverview
  let prompt := pyReplace prompt "{components}" componentsText
  let prompt := pyReplace prompt "{api_flows}" apiFlowsText
  let prompt := pyReplace prompt "{matrix}" matrixText
  pyReplace prompt "{query}" query

/-- `QueryProcessor.process_query(query, template_name, verify)`
(lines 399-424), with the two external text-generation calls supplied by the
oracle `llm`.  Every pipeline stage threads the analyzer state through
explicitly; as in the source, no stage assigns to it, so the returned state
is the input state.  The source calls `get_relevant_components` with its
default `top_n=5`. -/
def processQuery {V β : Type} [LinearOrder β] (cosineSim : String → V → β)
    (llm : String → String) (st : AnalyzerState V) (query : String)
    (templateName : String) (verify : Bool) : String × AnalyzerState V :=
  let scored := getRelevantComponents cosineSim query st.fileSummaryEmbeddings 5
  let relevantComponents := scored.map
    (fun p => (p.1, (((lookupStr st.fileSummaries p.1).map
        (fun d => d.summary)).getD "")))
  let componentNames := relevantComponents.map (fun p => p.1)
  let ctx : QueryContext :=
    { appOverview := st.appOverview,
      components := relevantComponents,
      apiFlows := getRelatedApiFlows st componentNames,
      matrix := getRelatedMatrixEntries st componentNames }
  let prompt := buildPrompt st query ctx templateName
  let response := llm prompt
  if verify then
    let verificationPrompt :=
      verifyPrompt ((lookupStr st.promptTemplates "self_correction_template").getD "")
        response ctx.appOverview (formatMatrixText ctx.matrix)
    (llm verificationPrompt, st)
  else (response, st)

/-! ## Observation helpers and concrete inputs used by the proofs -/

/-- The endpoints recorded in the derived api-flow object under a key
(empty when the key is absent). -/
def entryEndpoints (flow : List (String × FlowEntry)) (k : String) :
    List FlowEndpoint :=
  ((alistFind flow k).getD { endpoints := [], service_calls := [] }).endpoints

/-- A controller class with class-level base path `"/api"` and a GET method
with path `"users"`. -/
def demoControllerApi : ClassNode :=
  { name := "Foo", line := 10,
    annotations := [{ name := "RestController", element := [] },
                    { name := "RequestMapping", element := [("value", "\"/api\"")] }],
    body := [{ name := "bar", line := 12,
               annotations := [{ name := "GetMapping",
                                 element := [("value", "\"users\"")] }] }],
    fields := [] }

/-- A controller class with no class-level `RequestMapping` (base path is
the empty string) and a GET method with path `"/users"`. -/
def demoControllerBare : ClassNode :=
  { name := "Bare", line := 3,
    annotations := [{ name := "RestController", element := [] }],
    body := [{ name := "baz", line := 5,
               annotations := [{ name := "GetMapping",
                                 element := [("value", "\"/users\"")] }] }],
    fields := [] }

/-- A controller class where neither the class-level nor the method-level
annotation carries a `value` element: both paths default to the empty
string. -/
def demoControllerNoValues : ClassNode :=
  { name := "NoVal", line := 1,
    annotations := [{ name := "Controller", element := [] },
                    { name := "RequestMapping", element := [] }],
    body := [{ name := "qux", line := 7,
               annotations := [{ name := "GetMapping", element := [] }] }],
    fields := [] }

/-- One api-flow endpoint of a stored record (a GET on path `accounts` of
class `Foo`), used to evaluate the rebuild at a concrete input. -/
def demoEndpoint : FlowEndpoint :=
  { method := "getAccounts", path := "accounts", cls := "Foo",
    line_number := 12, http_method := "GET" }

/-- A stored ComponentRecord whose class carries a `RequestMapping`
annotation name and whose api-flow holds `demoEndpoint` plus one service
call. -/
def demoFlowRecord : ComponentRecord :=
  { pkg := "com.bank",
    classes := [{ name := "Foo", line_number := 10, pkg := "com.bank",
                  annotations := ["RestController", "RequestMapping"] }],
    methods := [{ name := "getAccounts", line_number := 12,
                  annotations := ["GetMapping"] }],
    dependencies := ["com.bank.AccountService"],
    api_flow := { endpoints := [demoEndpoint],
                  service_calls := [{ cls := "Foo",
                                      service := "AccountService",
                                      field := "accountService" }],
                  repository_calls := [] } }

/-!
# Theorems

Sanity checks of the string primitives first, then the supporting lemmas
and the one theorem per claim.
-/

example : pyReplace "/api//users" "//" "/" = "/api/users" := by decide
example : pyReplace "//users" "//" "/" = "/users" := by decide
example : strContains "abcRequestMappingx" "RequestMapping" = true := by decide
example : strContains "abc" "RequestMapping" = false := by decide
example : pyStrip '"' "\"/api\"" = "/api" := by decide
example : pyUpper "Get" = "GET" := by decide
example : pyLower "FooTest" = "footest" := by decide
example : pySplitSlash "a/b/c" = ["a", "b", "c"] := by decide
example : pyEndsWith "Foo.java" ".java" = true := by decide
example : isExternalDependency "org.springframework.web.bind" = true := by decide
example : isExternalDependency "com.bank.AccountService" = false := by decide
example : isTestClass "AccountServiceTest" "src/main/Foo.java" = true := by decide
example : isTestClass "AccountService" "src/test/Foo.java" = true := by decide
example : isTestClass "AccountService" "src/main/Foo.java" = false := by decide
example :
    getRelevantComponents (fun _ v => v) "q"
      [("A", (3 : Int)), ("B", 7), ("C", 3), ("D", 9)] 3 =
      [("D", 9), ("B", 7), ("A", 3)] := by decide

/-- C1.  The claim states that a file is parsed only when it is new or its
content checksum differs from a persisted last-seen checksum, so that a
second scan of an unchanged directory performs zero re-parses.
`scanDirectoryIncremental` has no checksum input at all — the source walks
the directory and queues every eligible `.java` file on every scan — so a
repeated scan over one unchanged file queues it again: one re-parse, not
zero. -/
theorem scan_queues_every_eligible_file_each_scan :
    scanDirectoryIncremental [("repo/src/main", ["Foo.java", "README.md"])] =
      ["repo/src/main/Foo.java"]
  ∧ (scanDirectoryIncremental [("repo/src/main", ["Foo.java", "README.md"])]).length = 1 := by
  decide

/-- C3.  Endpoint path construction: base path `"/api"` with method path
`"users"` yields `"/api/users"`; base path `""` with method path `"/users"`
yields `"/users"`; when either annotation value is absent the empty string
is used in its place (both absent: `"" + "/" + ""` collapses to `"/"`). -/
theorem endpoint_path_join_examples :
    extractApiEndpoints [.classNode demoControllerApi] =
      [{ method := "GET", path := "/api/users", cls := "Foo",
         method_name := "bar", line_number := 12 }]
  ∧ extractApiEndpoints [.classNode demoControllerBare] =
      [{ method := "GET", path := "/users", cls := "Bare",
         method_name := "baz", line_number := 5 }]
  ∧ extractApiEndpoints [.classNode demoControllerNoValues] =
      [{ method := "GET", path := "/", cls := "NoVal",
         method_name := "qux", line_number := 7 }] := by
  decide

/-- C8.  Answering a query — retrieval, context assembly, prompt building,
generation and optional verification — leaves the whole analyzer state
(loaded summaries, embeddings, API flows, relationship matrix, templates
and all persisted files) exactly as it was. -/
theorem process_query_mutates_no_state {V β : Type} [LinearOrder β]
    (cosineSim : String → V → β) (llm : String → String) (st : AnalyzerState V)
    (query templateName : String) (verify : Bool) :
    (processQuery cosineSim llm st query templateName verify).2 = st ∧
    (processQuery cosineSim llm st query templateName verify).2.persistedFiles =
      st.persistedFiles := by
  cases verify <;> exact ⟨rfl, rfl⟩

/-- C6 counterexample.  The claim states that every invocation of the
external text-generation service retries failures up to a fixed bound.  The
query-engine call (`LLMClient.analyze_application`) makes exactly one
attempt: on an oracle whose first attempt fails and whose second would
succeed, it returns the error string at once, while the indexer path
(`call_openai_api`), which does retry, returns the second attempt's
answer. -/
theorem analyzer_failure_returned_without_retry :
    analyzeApplication (fun i => if i == 0 then .error "boom" else .ok "answer") =
      "Error: boom"
  ∧ callOpenaiApi (some "key")
      (fun i => if i == 0 then .error "boom" else .ok "answer") 3 = some "answer" := by
  decide

/-- C7 counterexample.  The claim states that missing required
configuration at startup is fatal.  A missing `config.json` is not: it
yields the empty configuration and the process continues. -/
theorem missing_config_is_not_fatal :
    loadConfig FileContents.missing = Except.ok [] := rfl

/-- C7 as amended.  Failures to read a persisted artifact through
`load_from_file` yield the empty default instead of a propagated exception.
For the startup configuration, only an existing but unreadable or
unparseable `config.json` is fatal (the exception escapes `load_config`,
run at module import before any indexing); a missing file yields the empty
configuration, and the then-missing API credential surfaces later as the
error value `None` from `call_openai_api`, not as a crash. -/
theorem artifact_read_failure_contract_amended {α : Type} (emptyValue : α) :
    (∀ contents : FileContents α, (∀ v, contents ≠ FileContents.valid v) →
        loadFromFile emptyValue contents = emptyValue)
  ∧ (∀ msg, loadConfig (FileContents.malformed msg) = Except.error msg)
  ∧ (∀ msg, loadConfig (FileContents.ioError msg) = Except.error msg)
  ∧ loadConfig FileContents.emptyFile =
      Except.error "JSONDecodeError: Expecting value"
  ∧ loadConfig FileContents.missing = Except.ok []
  ∧ (∀ outcomes : Nat → Except String String,
      callOpenaiApi none outcomes 3 = none) := by
  refine ⟨?_, fun msg => rfl, fun msg => rfl, rfl, rfl, fun outcomes => rfl⟩
  intro contents h
  cases contents with
  | missing => rfl
  | emptyFile => rfl
  | ioError msg => rfl
  | malformed msg => rfl
  | valid v => exact absurd rfl (h v)

/-- Witness for the amended C7 theorem at a concrete failing read. -/
theorem artifact_read_failure_witness :
    loadFromFile ([] : List (String × String)) (FileContents.ioError "disk gone") = [] :=
  (artifact_read_failure_contract_amended []).1 _
    (fun v h => FileContents.noConfusion h)

/-- C6 as amended.  In the indexer path, `call_openai_api` makes up to 3
attempts (the source default, with a fixed 2-second sleep between them):
any attempt that succeeds is returned; if the first three attempts all fail
the distinguished error value `None` is returned — never an empty answer
string.  In the query-engine path, `LLMClient.analyze_application` makes a
single attempt and on failure immediately returns `"Error: " + message`,
which is likewise never the empty string; no retry is performed there. -/
theorem llm_failure_handling_amended :
    (∀ (key : String) (outcomes : Nat → Except String String),
        (∀ i, i < 3 → ∃ e, outcomes i = .error e) →
        callOpenaiApi (some key) outcomes 3 = none)
  ∧ (∀ (key : String) (outcomes : Nat → Except String String) (c : String) (i : Nat),
        i < 3 → (∀ j, j < i → ∃ e, outcomes j = .error e) → outcomes i = .ok c →
        callOpenaiApi (some key) outcomes 3 = some c)
  ∧ (∀ (outcomes : Nat → Except String String) (e : String),
        outcomes 0 = .error e →
        analyzeApplication outcomes = "Error: " ++ e ∧
        analyzeApplication outcomes ≠ "")
  ∧ (∀ outcomes : Nat → Except String String,
      callOpenaiApi none outcomes 3 = none) := by
  refine ⟨?_, ?_, ?_, fun outcomes => rfl⟩
  · intro key outcomes h
    obtain ⟨e0, h0⟩ := h 0 (by norm_num)
    obtain ⟨e1, h1⟩ := h 1 (by norm_num)
    obtain ⟨e2, h2⟩ := h 2 (by norm_num)
    simp [callOpenaiApi, callAttempts, h0, h1, h2]
  · intro key outcomes c i hi hprev hok
    interval_cases i
    · simp [callOpenaiApi, callAttempts, hok]
    · obtain ⟨e0, h0⟩ := hprev 0 (by norm_num)
      simp [callOpenaiApi, callAttempts, h0, hok]
    · obtain ⟨e0, h0⟩ := hprev 0 (by norm_num)
      obtain ⟨e1, h1⟩ := hprev 1 (by norm_num)
      simp [callOpenaiApi, callAttempts, h0, h1, hok]
  · intro outcomes e h
    refine ⟨by simp [analyzeApplication, h], ?_⟩
    simp only [analyzeApplication, h]
    intro heq
    have : ("Error: " ++ e).data = "".data := congrArg String.data heq
    simp [String.data_append] at this

/-- Witness for the amended C6 theorem at a concrete failing oracle. -/
theorem llm_failure_handling_witness :
    callOpenaiApi (some "key") (fun _ => .error "down") 3 = none
  ∧ analyzeApplication (fun _ => .error "down") = "Error: down" :=
  ⟨llm_failure_handling_amended.1 "key" _ (fun i _ => ⟨"down", rfl⟩),
   (llm_failure_handling_amended.2.2.1 _ "down" rfl).1⟩

/-- C10.  Every successful `parse_java_file` discards the persisted
api-flow object entirely (`api_flow_data = {}` right after loading it) and
rewrites it as `deriveApiFlow` of the updated index: the written artifact
is a pure function of the index file and is independent of whatever the
api-flow file held before, so it can retain nothing derived from records no
longer in the index. -/
theorem api_flow_rewritten_from_index_only (st st' : IndexState)
    (filePath : String) (parsedData : ComponentRecord)
    (h : st.index = st'.index) :
    (parseJavaFile st filePath (.ok parsedData)).1.apiFlow =
      deriveApiFlow (upsertRecord st.index filePath parsedData)
  ∧ (parseJavaFile st filePath (.ok parsedData)).1.apiFlow =
      (parseJavaFile st' filePath (.ok parsedData)).1.apiFlow := by
  exact ⟨rfl, by simp only [parseJavaFile, h]⟩

/-- Witness for C10: two stores with the same index but different
previously persisted api-flow data (one of them stale) end up with the same
rewritten api-flow artifact. -/
theorem api_flow_rewritten_witness :
    (parseJavaFile
        { index := [],
          apiFlow := [("stale/path", { endpoints := [demoEndpoint], service_calls := [] })] }
        "Foo.java" (.ok demoFlowRecord)).1.apiFlow =
      (parseJavaFile { index := [], apiFlow := [] }
        "Foo.java" (.ok demoFlowRecord)).1.apiFlow :=
  (api_flow_rewritten_from_index_only _ _ "Foo.java" demoFlowRecord rfl).2

/-- A dependency in the fold result was already in the accumulator or
passed the external-prefix filter when it was appended. -/
theorem parseTree_foldl_dependencies (filePath packageName : String)
    (tree : List JavaNode) (acc : ComponentRecord) (dep : String)
    (hmem : dep ∈ (tree.foldl (parseTreeStep filePath packageName) acc).dependencies) :
    dep ∈ acc.dependencies ∨ isExternalDependency dep = false := by
  induction tree generalizing acc with
  | nil => exact Or.inl hmem
  | cons node rest ih =>
    rcases ih (parseTreeStep filePath packageName acc node) hmem with h | h
    · cases node with
      | classNode c =>
        simp only [parseTreeStep] at h
        split at h <;> exact Or.inl (by simpa using h)
      | methodNode m =>
        simp only [parseTreeStep] at h
        split at h <;> exact Or.inl (by simpa using h)
      | importNode p =>
        simp only [parseTreeStep] at h
        split at h
        next hext =>
          simp only [List.mem_append, List.mem_singleton] at h
          rcases h with h | h
          · exact Or.inl h
          · subst h
            simp only [Bool.not_eq_true'] at hext
            exact Or.inr hext
        next hext => exact Or.inl h
    · exact Or.inr h

/-- C9.  For every parsed file, the dependency list of the resulting
ComponentRecord contains no import matching a configured external-namespace
prefix: an import for which `is_external_dependency` holds is dropped
before the record is built, hence before it is stored. -/
theorem dependencies_never_external (tree : List JavaNode)
    (filePath packageName : String) (apiFlowData : ApiFlow) (dep : String)
    (hmem : dep ∈ (parseTree tree filePath packageName apiFlowData).dependencies) :
    isExternalDependency dep = false := by
  rcases parseTree_foldl_dependencies filePath packageName tree _ dep hmem with h | h
  · simp at h
  · exact h

/-- Witness for C9 at a concrete parsed file with one retained import. -/
theorem dependencies_never_external_witness :
    isExternalDependency "com.bank.AccountService" = false :=
  dependencies_never_external [JavaNode.importNode "com.bank.AccountService"]
    "src/main/Foo.java" "com.bank"
    { endpoints := [], service_calls := [], repository_calls := [] }
    "com.bank.AccountService" (by decide)

/-- Membership through a descending insertion. -/
theorem mem_insertDescending {β : Type} [LinearOrder β] (x a : String × β)
    (l : List (String × β)) :
    a ∈ insertDescending x l ↔ a = x ∨ a ∈ l := by
  induction l with
  | nil => simp [insertDescending]
  | cons y ys ih =>
    simp only [insertDescending]
    split
    · simp [or_comm, or_assoc, or_left_comm]
    · simp [ih, or_comm, or_assoc, or_left_comm]

/-- A descending insertion keeps the list pairwise descending. -/
theorem pairwise_insertDescending {β : Type} [LinearOrder β] (x : String × β)
    (l : List (String × β))
    (h : l.Pairwise (fun a b => b.2 ≤ a.2)) :
    (insertDescending x l).Pairwise (fun a b => b.2 ≤ a.2) := by
  induction l with
  | nil => simp [insertDescending]
  | cons y ys ih =>
    rcases List.pairwise_cons.mp h with ⟨hy, hys⟩
    simp only [insertDescending]
    split
    next hle =>
      refine List.pairwise_cons.mpr ⟨?_, h⟩
      intro z hz
      rcases List.mem_cons.mp hz with rfl | hz
      · exact hle
      · exact le_trans (hy z hz) hle
    next hgt =>
      refine List.pairwise_cons.mpr ⟨?_, ih hys⟩
      intro z hz
      rcases (mem_insertDescending x z ys).mp hz with rfl | hz
      · exact le_of_lt (not_le.mp hgt)
      · exact hy z hz

/-- The sort is pairwise descending in the similarity score. -/
theorem pairwise_sortDescending {β : Type} [LinearOrder β]
    (l : List (String × β)) :
    (sortDescending l).Pairwise (fun a b => b.2 ≤ a.2) := by
  induction l with
  | nil => simp [sortDescending]
  | cons x xs ih => exact pairwise_insertDescending x _ ih

/-- Inserting descendingly places `x` in front of exactly the entries of
its own score, so the entries of any one score are preserved in order. -/
theorem filter_insertDescending {β : Type} [LinearOrder β] (x : String × β)
    (l : List (String × β)) (s : β) :
    (insertDescending x l).filter (fun p => decide (p.2 = s)) =
      (if x.2 = s then [x] else []) ++ l.filter (fun p => decide (p.2 = s)) := by
  induction l with
  | nil =>
    simp only [insertDescending, List.filter]
    by_cases hx : x.2 = s <;> simp [hx]
  | cons y ys ih =>
    simp only [insertDescending]
    split
    next hle =>
      by_cases hx : x.2 = s <;> simp [List.filter_cons, hx]
    next hgt =>
      have hxy : x.2 < y.2 := not_le.mp hgt
      by_cases hx : x.2 = s
      · have hy : ¬ y.2 = s := by
          intro hy
          exact absurd (hy.trans hx.symm) (ne_of_gt hxy)
        simp [List.filter_cons, hx, hy, ih]
      · by_cases hy : y.2 = s <;> simp [List.filter_cons, hx, hy, ih]

/-- Stability: for every score, the sorted list holds exactly the entries
of that score in their original insertion order. -/
theorem filter_sortDescending {β : Type} [LinearOrder β]
    (l : List (String × β)) (s : β) :
    (sortDescending l).filter (fun p => decide (p.2 = s)) =
      l.filter (fun p => decide (p.2 = s)) := by
  induction l with
  | nil => rfl
  | cons x xs ih =>
    simp only [sortDescending, filter_insertDescending, ih, List.filter_cons]
    by_cases hx : x.2 = s <;> simp [hx]

/-- C5.  `get_relevant_components` returns at most `topN` components
(source default 5), in descending similarity order; equal scores keep their
insertion order (the Python sort is stable); and the result is a function
of the query, the stored vectors and the similarity function alone, so
identical inputs give the identical top-N list. -/
theorem retrieval_top_n_contract {V β : Type} [LinearOrder β]
    (cosineSim : String → V → β) (query : String)
    (storedEmbeddings : List (String × V)) (topN : Nat) :
    (getRelevantComponents cosineSim query storedEmbeddings topN).length ≤ topN
  ∧ (getRelevantComponents cosineSim query storedEmbeddings topN).Pairwise
      (fun a b => b.2 ≤ a.2)
  ∧ (∀ s : β,
      (sortDescending (storedEmbeddings.map (fun entry => (entry.1, cosineSim query entry.2)))).filter
          (fun p => decide (p.2 = s)) =
        (storedEmbeddings.map (fun entry => (entry.1, cosineSim query entry.2))).filter
          (fun p => decide (p.2 = s)))
  ∧ (∀ (query' : String) (stored' : List (String × V)),
      query' = query → stored' = storedEmbeddings →
      getRelevantComponents cosineSim query' stored' topN =
        getRelevantComponents cosineSim query storedEmbeddings topN) := by
  refine ⟨?_, ?_, ?_, ?_⟩
  · simp only [getRelevantComponents]
    exact List.length_take_le topN _
  · exact (pairwise_sortDescending _).take
  · intro s
    exact filter_sortDescending _ s
  · intro query' stored' hq hs
    rw [hq, hs]

/-- Witness for C5 at a concrete query and store (with a tie). -/
theorem retrieval_top_n_witness :
    (getRelevantComponents (fun _ v => v) "query"
        [("A", (3 : Int)), ("B", 3), ("C", 5)] 2).length ≤ 2
  ∧ getRelevantComponents (fun _ v => v) "query"
        [("A", (3 : Int)), ("B", 3), ("C", 5)] 2 =
      getRelevantComponents (fun _ v => v) "query"
        [("A", (3 : Int)), ("B", 3), ("C", 5)] 2 :=
  ⟨(retrieval_top_n_contract (fun _ v => v) "query"
      [("A", (3 : Int)), ("B", 3), ("C", 5)] 2).1,
   (retrieval_top_n_contract (fun _ v => v) "query"
      [("A", (3 : Int)), ("B", 3), ("C", 5)] 2).2.2.2 "query"
      [("A", (3 : Int)), ("B", 3), ("C", 5)] rfl rfl⟩

/-- The inner annotation loop of `flowBasePath`: the accumulator becomes
the literal `"api/v1"` exactly when some stored annotation name contains
`RequestMapping`, and is untouched otherwise. -/
theorem flowBasePath_inner (anns : List String) (bp : String) :
    anns.foldl (fun bp ann => if strContains ann "RequestMapping" then "api/v1" else bp) bp =
      if anns.any (fun ann => strContains ann "RequestMapping") then "api/v1" else bp := by
  induction anns generalizing bp with
  | nil => simp
  | cons a rest ih =>
    simp only [List.foldl_cons, List.any_cons, ih]
    by_cases ha : strContains a "RequestMapping" = true
    · simp [ha]
    · simp only [Bool.not_eq_true] at ha
      simp [ha]

/-- The outer loop of `flowBasePath`, for an arbitrary accumulator. -/
theorem flowBasePath_foldl (classes : List ClassInfo) (clsName bp : String) :
    classes.foldl
        (fun basePath classInfo =>
          if classInfo.name == clsName then
            classInfo.annotations.foldl
              (fun bp ann => if strContains ann "RequestMapping" then "api/v1" else bp)
              basePath
          else basePath)
        bp =
      if classes.any
          (fun classInfo => classInfo.name == clsName &&
            classInfo.annotations.any (fun ann => strContains ann "RequestMapping"))
        then "api/v1" else bp := by
  induction classes generalizing bp with
  | nil => simp
  | cons classInfo rest ih =>
    rw [List.foldl_cons, ih, List.any_cons]
    by_cases hname : (classInfo.name == clsName) = true
    · by_cases hann : (classInfo.annotations.any fun ann => strContains ann "RequestMapping") = true
      · simp [hname, hann, flowBasePath_inner]
      · simp only [Bool.not_eq_true] at hann
        simp [hname, hann, flowBasePath_inner]
    · simp only [Bool.not_eq_true] at hname
      simp [hname]

/-- `flowBasePath` is the literal `"api/v1"` (not any parsed value) when
the class carries a RequestMapping-named annotation, and the empty string
otherwise. -/
theorem flowBasePath_eq (data : ComponentRecord) (clsName : String) :
    flowBasePath data clsName =
      if classHasRequestMappingName data clsName then "api/v1" else "" := by
  simp only [flowBasePath, classHasRequestMappingName]
  exact flowBasePath_foldl data.classes clsName ""

/-- Looking a key up after an in-place modification of another key (or the
same one). -/
theorem alistFind_alistModify (flow : List (String × FlowEntry)) (k : String)
    (f : FlowEntry → FlowEntry) (k' : String) :
    alistFind (alistModify flow k f) k' =
      if k' == k then (alistFind flow k').map f else alistFind flow k' := by
  induction flow with
  | nil =>
    by_cases h : k' = k <;> simp [alistFind, alistModify, h]
  | cons hd tl ih =>
    simp only [alistModify, beq_iff_eq] at ih ⊢
    by_cases h1 : hd.1 = k
    · by_cases h2 : hd.1 = k'
      · have h3 : k' = k := h2 ▸ h1
        simp [alistFind, h1, h2, h3]
      · have h3 : ¬ k' = k := fun h => h2 (h1.symm ▸ h.symm ▸ rfl)
        have h4 : ¬ k = k' := fun h => h3 h.symm
        simp [alistFind, h1, h2, h3, h4, ih]
    · by_cases h2 : hd.1 = k'
      · have h3 : ¬ k' = k := fun h => h1 (h2.symm ▸ h ▸ rfl)
        simp [alistFind, h1, h2, h3]
      · simp [alistFind, h1, h2, ih]

/-- Looking a key up after appending a fresh entry at the end. -/
theorem alistFind_append (flow : List (String × FlowEntry)) (k : String)
    (e : FlowEntry) (k' : String) :
    alistFind (flow ++ [(k, e)]) k' =
      match alistFind flow k' with
      | some v => some v
      | none => if k' == k then some e else none := by
  induction flow with
  | nil =>
    by_cases h : k' = k
    · simp [alistFind, h]
    · have h' : ¬ k = k' := fun e => h e.symm
      simp [alistFind, h, h']
  | cons hd tl ih =>
    by_cases h1 : hd.1 = k'
    · simp [alistFind, h1]
    · simp [alistFind, h1, ih]

/-- An in-place modification that keeps the `endpoints` field of the entry
keeps the endpoints recorded under every key. -/
theorem entryEndpoints_alistModify_preserve (flow : List (String × FlowEntry))
    (k : String) (f : FlowEntry → FlowEntry) (k' : String)
    (hf : ∀ e, (f e).endpoints = e.endpoints) :
    entryEndpoints (alistModify flow k f) k' = entryEndpoints flow k' := by
  simp only [entryEndpoints, alistFind_alistModify]
  by_cases h : (k' == k) = true
  · simp only [h, if_true]
    cases alistFind flow k' with
    | none => rfl
    | some e => simp [hf]
  · simp [h]

/-- Merging one service call never touches the recorded endpoints. -/
theorem entryEndpoints_addServiceCallStep (endpoint : FlowEndpoint)
    (fullPath : String) (acc : List (String × FlowEntry))
    (serviceCall : ServiceCall) (k : String) :
    entryEndpoints (addServiceCallStep endpoint fullPath acc serviceCall) k =
      entryEndpoints acc k := by
  unfold addServiceCallStep
  split
  · apply entryEndpoints_alistModify_preserve
    intro e
    split <;> rfl
  · rfl

/-- The whole service-call merge never touches the recorded endpoints. -/
theorem entryEndpoints_addServiceCalls (data : ComponentRecord)
    (endpoint : FlowEndpoint) (fullPath : String)
    (flow : List (String × FlowEntry)) (k : String) :
    entryEndpoints (addServiceCalls data endpoint fullPath flow) k =
      entryEndpoints flow k := by
  unfold addServiceCalls
  generalize data.api_flow.service_calls = scs
  induction scs generalizing flow with
  | nil => rfl
  | cons sc rest ih =>
    rw [List.foldl_cons, ih, entryEndpoints_addServiceCallStep]

/-- Processing an endpoint appends it to the bucket at its own full path. -/
theorem entryEndpoints_processEndpoint_self (data : ComponentRecord)
    (flow : List (String × FlowEntry)) (endpoint : FlowEndpoint) :
    entryEndpoints (processEndpoint data flow endpoint) (flowFullPath data endpoint) =
      entryEndpoints flow (flowFullPath data endpoint) ++ [endpoint] := by
  simp only [processEndpoint]
  rw [entryEndpoints_addServiceCalls]
  cases hfind : alistFind flow (flowFullPath data endpoint) with
  | none =>
    simp only [hfind, Option.isNone_none, if_true, entryEndpoints,
      alistFind_alistModify, beq_self_eq_true, alistFind_append, hfind]
    simp [entryEndpoints, hfind]
  | some e =>
    simp [entryEndpoints, alistFind_alistModify, hfind]

/-- Processing an endpoint only ever appends to buckets: every endpoint
already recorded under any key stays recorded. -/
theorem entryEndpoints_processEndpoint_mono (data : ComponentRecord)
    (flow : List (String × FlowEntry)) (endpoint : FlowEndpoint) (k : String)
    (x : FlowEndpoint) (hx : x ∈ entryEndpoints flow k) :
    x ∈ entryEndpoints (processEndpoint data flow endpoint) k := by
  by_cases hk : k = flowFullPath data endpoint
  · subst hk
    rw [entryEndpoints_processEndpoint_self]
    exact List.mem_append_left _ hx
  · have hpres : entryEndpoints (processEndpoint data flow endpoint) k =
        entryEndpoints flow k := by
      simp only [processEndpoint]
      rw [entryEndpoints_addServiceCalls]
      have hbeq : (k == flowFullPath data endpoint) = false := by
        simpa using hk
      simp only [entryEndpoints, alistFind_alistModify, hbeq, Bool.false_eq_true,
        if_false]
      split
      · rw [alistFind_append]
        cases alistFind flow k with
        | none => simp [hbeq]
        | some e => rfl
      · rfl
    rwa [hpres]

/-- Folding `processEndpoint` over any endpoint list keeps recorded
endpoints recorded. -/
theorem entryEndpoints_foldl_mono (data : ComponentRecord)
    (eps : List FlowEndpoint) (flow : List (String × FlowEntry)) (k : String)
    (x : FlowEndpoint) (hx : x ∈ entryEndpoints flow k) :
    x ∈ entryEndpoints (eps.foldl (processEndpoint data) flow) k := by
  induction eps generalizing flow with
  | nil => exact hx
  | cons e rest ih =>
    exact ih _ (entryEndpoints_processEndpoint_mono data flow e k x hx)

/-- Folding `processEndpoint` over a list records each of its members under
that member's full path. -/
theorem entryEndpoints_foldl_self (data : ComponentRecord)
    (eps : List FlowEndpoint) (flow : List (String × FlowEntry))
    (endpoint : FlowEndpoint) (he : endpoint ∈ eps) :
    endpoint ∈ entryEndpoints (eps.foldl (processEndpoint data) flow)
      (flowFullPath data endpoint) := by
  induction eps generalizing flow with
  | nil => cases he
  | cons hd rest ih =>
    rcases List.mem_cons.mp he with rfl | hmem
    · rw [List.foldl_cons]
      apply entryEndpoints_foldl_mono
      rw [entryEndpoints_processEndpoint_self]
      exact List.mem_append_right _ (List.mem_singleton.mpr rfl)
    · exact ih _ hmem

/-- Folding whole records keeps recorded endpoints recorded. -/
theorem entryEndpoints_records_mono (records : List (String × ComponentRecord))
    (flow : List (String × FlowEntry)) (k : String) (x : FlowEndpoint)
    (hx : x ∈ entryEndpoints flow k) :
    x ∈ entryEndpoints (records.foldl processRecord flow) k := by
  induction records generalizing flow with
  | nil => exact hx
  | cons r rest ih =>
    exact ih _ (entryEndpoints_foldl_mono r.2 _ flow k x hx)

/-- Every endpoint of every record of the index is recorded in the rebuild
under its computed full-path key. -/
theorem deriveApiFlow_records_endpoint (records : List (String × ComponentRecord))
    (flow : List (String × FlowEntry)) (filePath : String)
    (data : ComponentRecord) (endpoint : FlowEndpoint)
    (hrec : (filePath, data) ∈ records)
    (hep : endpoint ∈ data.api_flow.endpoints) :
    endpoint ∈ entryEndpoints (records.foldl processRecord flow)
      (flowFullPath data endpoint) := by
  induction records generalizing flow with
  | nil => cases hrec
  | cons r rest ih =>
    rcases List.mem_cons.mp hrec with rfl | hmem
    · rw [List.foldl_cons]
      apply entryEndpoints_records_mono
      exact entryEndpoints_foldl_self data _ flow endpoint hep
    · exact ih _ hmem

/-- C4.  In the `parse_java_file` rebuild of the api-flow JSON, the
full-path key of every endpoint whose class carries a RequestMapping-named
annotation is computed from the fixed literal base path `"api/v1"` — the
stored record does not even hold the parsed annotation value, so the key is
`("api/v1" + "/" + path).replace("//", "/")` whatever the original
annotation said — and the endpoint is recorded in the derived object under
exactly that key. -/
theorem api_flow_key_uses_fixed_literal (indexData : List (String × ComponentRecord))
    (filePath : String) (data : ComponentRecord) (endpoint : FlowEndpoint)
    (hmem : (filePath, data) ∈ indexData)
    (hep : endpoint ∈ data.api_flow.endpoints)
    (hrm : classHasRequestMappingName data endpoint.cls = true) :
    flowFullPath data endpoint = pyReplace ("api/v1" ++ "/" ++ endpoint.path) "//" "/"
  ∧ endpoint ∈ entryEndpoints (deriveApiFlow indexData)
      (pyReplace ("api/v1" ++ "/" ++ endpoint.path) "//" "/") := by
  have hkey : flowFullPath data endpoint =
      pyReplace ("api/v1" ++ "/" ++ endpoint.path) "//" "/" := by
    rw [flowFullPath, flowBasePath_eq, hrm, if_pos rfl]
  refine ⟨hkey, ?_⟩
  rw [← hkey]
  exact deriveApiFlow_records_endpoint indexData [] filePath data endpoint hmem hep

/-- Witness for C4 at a concrete one-record index. -/
theorem api_flow_key_witness :
    flowFullPath demoFlowRecord demoEndpoint =
      pyReplace ("api/v1" ++ "/" ++ demoEndpoint.path) "//" "/"
  ∧ demoEndpoint ∈ entryEndpoints (deriveApiFlow [("Foo.java", demoFlowRecord)])
      (pyReplace ("api/v1" ++ "/" ++ demoEndpoint.path) "//" "/") :=
  api_flow_key_uses_fixed_literal [("Foo.java", demoFlowRecord)] "Foo.java"
    demoFlowRecord demoEndpoint (by decide) (by decide) (by decide)

/-- C2.  The claim says the verification prompt embeds the first answer and
the same Context (overview and matrix rows) in both template paths.  With
the named `self_correction_template` present, lines 461-463 of the source
each restart from `verification_template`, so the answer and overview
substitutions are discarded: the resulting prompt does not contain the
first answer or the overview and still carries the literal placeholder
`{insert original LLM response}`; only the matrix rows survive.  With the
built-in fallback template the three `{response}`/`{app_overview}`/`{matrix}`
substitutions of lines 466-468 do apply and the prompt contains all
three. -/
theorem verify_prompt_drops_answer_with_named_template :
    (strContains
        (verifyPrompt namedSelfCorrectionTemplate "FIRST ANSWER BODY"
          "APP OVERVIEW BODY" "MATRIX ROWS BODY") "FIRST ANSWER BODY" = false)
  ∧ (strContains
        (verifyPrompt namedSelfCorrectionTemplate "FIRST ANSWER BODY"
          "APP OVERVIEW BODY" "MATRIX ROWS BODY") "APP OVERVIEW BODY" = false)
  ∧ (strContains
        (verifyPrompt namedSelfCorrectionTemplate "FIRST ANSWER BODY"
          "APP OVERVIEW BODY" "MATRIX ROWS BODY") "{insert original LLM response}" = true)
  ∧ (strContains
        (verifyPrompt namedSelfCorrectionTemplate "FIRST ANSWER BODY"
          "APP OVERVIEW BODY" "MATRIX ROWS BODY") "MATRIX ROWS BODY" = true)
  ∧ (strContains
        (verifyPrompt "" "FIRST ANSWER BODY" "APP OVERVIEW BODY" "MATRIX ROWS BODY")
        "FIRST ANSWER BODY" = true)
  ∧ (strContains
        (verifyPrompt "" "FIRST ANSWER BODY" "APP OVERVIEW BODY" "MATRIX ROWS BODY")
        "APP OVERVIEW BODY" = true)
  ∧ (strContains
        (verifyPrompt "" "FIRST ANSWER BODY" "APP OVERVIEW BODY" "MATRIX ROWS BODY")
        "MATRIX ROWS BODY" = true) := by
  set_option maxRecDepth 40000 in decide

end GleanClone
